import Mathlib

/-!
Shallow embedding of the load-test runner service (src/server.py and
src/helpers/load_test_helper.py) and proofs about its specified behavior.

Conventions of the embedding:
* the process environment (os.environ) is a partial map from variable names
  to string values;
* Python numbers are modelled as Int (int) and Rat (float), latency and
  overhead values as Rat;
* fallible Python code (raise) is modelled with Except;
* the external Locust engine (Environment, runner, stats) is not part of
  this repository, so a run is parameterized by the observable outcome the
  engine produces (overhead samples appended by Virtual Users, the aggregate
  stats object, and the error records); the orchestration code around it is
  translated line by line from run_locust_load_test;
* JSON-like Python dict values are modelled by the inductive PyVal, so a
  report is the literal dict the source builds.
-/

namespace PerfTests

/-- Environment of the process: a partial map from variable names to values,
mirroring os.environ lookups via os.environ.get. -/
abbrev Env := String → Option String

/-- Python truthiness of an optional string: None and the empty string are
falsy. This mirrors checks such as `if not os.environ.get(...)` and
`if global_host:` in the source. -/
def pyTruthyStr : Option String → Bool
  | Option.none => false
  | Option.some s => s != ""

/-- Pydantic model TestOverride (load_test_helper.py lines 62-66): four
optional per-request override fields. -/
structure TestOverride where
  duration_seconds : Option Int := Option.none
  user_count : Option Int := Option.none
  spawn_rate : Option ℚ := Option.none
  host : Option String := Option.none
deriving DecidableEq, Repr

/-- Pydantic model LoadTestRequest (load_test_helper.py lines 69-72). -/
structure LoadTestRequest where
  chat : Option TestOverride := Option.none
  responses : Option TestOverride := Option.none
  embeddings : Option TestOverride := Option.none
deriving DecidableEq, Repr

/-- JSON-like Python values, used to model the result dictionaries the
source builds literally. -/
inductive PyVal where
  | int (i : Int)
  | rat (q : ℚ)
  | str (s : String)
  | pynone
  | list (l : List PyVal)
  | dict (entries : List (String × PyVal))

/-- Lookup of a key in a Python dict value (first matching entry). -/
def PyVal.lookup : PyVal → String → Option PyVal
  | PyVal.dict es, k => (es.find? (fun e => e.1 == k)).map (fun e => e.2)
  | _, _ => Option.none

/-- Keys of a Python dict value, in insertion order. -/
def PyVal.keys : PyVal → List String
  | PyVal.dict es => es.map (fun e => e.1)
  | _ => []

/-- Python min over a non-empty list (junk value 0 on the empty list, which
the source never hits because the call is guarded by non-emptiness). -/
def listMin : List ℚ → ℚ
  | [] => 0
  | x :: xs => xs.foldl min x

/-- Python max over a non-empty list (junk value 0 on the empty list). -/
def listMax : List ℚ → ℚ
  | [] => 0
  | x :: xs => xs.foldl max x

/-- statistics.fmean: the arithmetic mean sum/length. -/
def fmean (l : List ℚ) : ℚ := l.sum / l.length

/-- statistics.median: middle element of the sorted data for odd length,
average of the two middle elements for even length. -/
def pyMedian (l : List ℚ) : ℚ :=
  let s := l.insertionSort (fun a b => a ≤ b)
  if l.length % 2 = 1 then s.getD (l.length / 2) 0
  else (s.getD (l.length / 2 - 1) 0 + s.getD (l.length / 2) 0) / 2

/-- Overhead summary dict exactly as run_locust_load_test builds it
(load_test_helper.py lines 334-343): always a "count" entry; when the
sample list is truthy (non-empty), also min, max, fmean and median entries. -/
def overheadSummaryDict (overhead_durations : List ℚ) : PyVal :=
  PyVal.dict
    (("count", PyVal.int overhead_durations.length) ::
      (if overhead_durations.isEmpty then []
       else
        [("min_ms", PyVal.rat (listMin overhead_durations)),
         ("max_ms", PyVal.rat (listMax overhead_durations)),
         ("avg_ms", PyVal.rat (fmean overhead_durations)),
         ("median_ms", PyVal.rat (pyMedian overhead_durations))]))

/-- One record of env.stats.errors as read by run_locust_load_test via
getattr: an optional method, an optional name, an occurrence count and an
error text. -/
structure StatsError where
  method : Option String
  name : Option String
  occurrences : Int
  error : String
deriving DecidableEq, Repr

/-- The per-error dict entry built in run_locust_load_test lines 326-331. -/
def errorEntry (e : StatsError) : PyVal :=
  PyVal.dict
    [("method", match e.method with
        | Option.some m => PyVal.str m
        | Option.none => PyVal.pynone),
     ("name", match e.name with
        | Option.some n => PyVal.str n
        | Option.none => PyVal.pynone),
     ("occurrences", PyVal.int e.occurrences),
     ("error", PyVal.str e.error)]

/-- The aggregate stats object env.stats.total as read out by
run_locust_load_test: request and failure counters, latency statistics, a
percentile function, and per-second rates. The statistics machinery itself
belongs to the external Locust library. -/
structure TotalStats where
  num_requests : Int
  num_failures : Int
  avg_response_time : ℚ
  response_time_percentile : ℚ → ℚ
  max_response_time : ℚ
  total_rps : ℚ
  total_fail_per_sec : ℚ

/-- Observable outcome of one Locust engine run: the overhead samples the
Virtual Users appended to the shared list while the run was active, the
aggregate stats object and the error records. The engine is an external
dependency, so run_locust_load_test is parameterized by this outcome. -/
structure LocustRunOutcome where
  samplesDuring : List ℚ
  total : TotalStats
  statErrors : List StatsError

/-- Ordered side effects run_locust_load_test performs between its
precondition checks and the final read-out, in source order. -/
inductive RunEvent where
  | clearOverhead
  | createRunner
  | runnerStart
  | scheduleQuit
  | joinRunner
deriving DecidableEq, Repr

/-- Exceptions raised by the helper module: ValueError and RuntimeError. -/
inductive RunError where
  | valueError (msg : String)
  | runtimeError (msg : String)
deriving DecidableEq, Repr

/-- Embedding of run_locust_load_test (load_test_helper.py lines 272-361).
Precondition checks in source order: a falsy (empty) user-class list raises
ValueError; a falsy LOCUST_API_KEY environment value raises RuntimeError.
Then the shared overhead list is cleared, the runner is created and started,
a quit is scheduled after the duration and the runner greenlet is joined;
the Virtual Users append outcome.samplesDuring to the cleared list while the
run is active. Finally the result dict is assembled literally as in lines
345-359. The host, when truthy, is written into env.host and the user
classes before the runner starts; it influences only the external engine,
not the result dict. On success the value is the event trace paired with
the result dict. -/
def run_locust_load_test (duration_seconds : Int) (user_count : Int)
    (spawn_rate : ℚ) (host : Option String) (user_classes : List String)
    (env : Env) (overhead_pre : Option (List ℚ)) (outcome : LocustRunOutcome) :
    Except RunError (List RunEvent × PyVal) :=
  if user_classes.isEmpty then
    Except.error (RunError.valueError "At least one user class must be provided.")
  else if !pyTruthyStr (env "LOCUST_API_KEY") then
    Except.error (RunError.runtimeError "LOCUST_API_KEY environment variable is required.")
  else
    -- overhead_durations = [] if the argument is None (line 303-304)
    let overhead0 : List ℚ := overhead_pre.getD []
    -- overhead_durations.clear() (line 306) empties the shared list; the
    -- Virtual Users then append the samples of this run while it is active.
    let overhead_durations : List ℚ := overhead0.drop overhead0.length ++ outcome.samplesDuring
    let _ := host
    let errors : List PyVal := outcome.statErrors.map errorEntry
    let result := PyVal.dict
      [("duration_seconds", PyVal.int duration_seconds),
       ("user_count", PyVal.int user_count),
       ("spawn_rate", PyVal.rat spawn_rate),
       ("requests", PyVal.int outcome.total.num_requests),
       ("failures", PyVal.int outcome.total.num_failures),
       ("avg_response_time_ms", PyVal.rat outcome.total.avg_response_time),
       ("median_response_time_ms", PyVal.rat (outcome.total.response_time_percentile (1 / 2))),
       ("p95_response_time_ms", PyVal.rat (outcome.total.response_time_percentile (95 / 100))),
       ("max_response_time_ms", PyVal.rat outcome.total.max_response_time),
       ("requests_per_second", PyVal.rat outcome.total.total_rps),
       ("failures_per_second", PyVal.rat outcome.total.total_fail_per_sec),
       ("errors", PyVal.list errors),
       ("overhead_summary", overheadSummaryDict overhead_durations)]
    Except.ok
      ([RunEvent.clearOverhead, RunEvent.createRunner, RunEvent.runnerStart,
        RunEvent.scheduleQuit, RunEvent.joinRunner], result)

/-- Characters Python str.strip() removes by default (ASCII whitespace). -/
def isPySpace (c : Char) : Bool :=
  c = ' ' || c = '\t' || c = '\n' || c = '\r' || c = '\x0b' || c = '\x0c'

/-- Python str.strip(): drop leading and trailing whitespace characters. -/
def pyStrip (l : List Char) : List Char :=
  ((l.dropWhile isPySpace).reverse.dropWhile isPySpace).reverse

/-- Python str.partition with separator a single space, restricted to the
two parts the source uses: the text before the first space and the text
after it (empty when no space occurs). -/
def partitionSpace : List Char → List Char × List Char
  | [] => ([], [])
  | c :: cs =>
    if c = ' ' then ([], cs)
    else
      let p := partitionSpace cs
      (c :: p.1, p.2)

/-- Structured FastAPI HTTPException: a status code and a detail message. -/
structure HttpError where
  statusCode : Nat
  detail : String
deriving DecidableEq, Repr

/-- Embedding of get_bearer_token (load_test_helper.py lines 82-97): a falsy
header (absent or empty) is a 401; the header is split at the first space
into scheme and parameter; a scheme whose lowercase form is not bearer, or
an empty parameter, is a 401; otherwise the stripped parameter is returned. -/
def get_bearer_token (auth_header : Option String) : Except HttpError String :=
  match auth_header with
  | Option.none => Except.error ⟨401, "Missing Authorization header."⟩
  | Option.some s =>
    if s = "" then Except.error ⟨401, "Missing Authorization header."⟩
    else
      let p := partitionSpace s.toList
      if p.1.map Char.toLower != "bearer".toList || p.2.isEmpty then
        Except.error ⟨401, "Invalid authorization scheme."⟩
      else
        Except.ok (String.mk (pyStrip p.2))

/-- Decimal digit test. -/
def isDigitChar (c : Char) : Bool := '0' ≤ c && c ≤ '9'

/-- Tail of a Python integer literal after its first digit: digits, with
single underscores allowed only between digits. -/
def restDigits : List Char → Bool
  | [] => true
  | c :: rest =>
    if isDigitChar c then restDigits rest
    else if c = '_' then
      match rest with
      | [] => false
      | d :: _ => isDigitChar d && restDigits rest
    else false

/-- Valid digit part of a Python int literal: non-empty, starts with a
digit, and any underscores sit between digits. -/
def validIntDigits : List Char → Bool
  | [] => false
  | c :: rest => isDigitChar c && restDigits rest

/-- Numeric value of a digit string, ignoring underscore separators. -/
def digitsValue (l : List Char) : Nat :=
  (l.filter isDigitChar).foldl (fun acc c => 10 * acc + (c.toNat - '0'.toNat)) 0

/-- Python int(str): strip whitespace, take an optional sign, and require a
valid digit string; None models the ValueError int() raises otherwise. -/
def pyInt (s : String) : Option Int :=
  match pyStrip s.toList with
  | '+' :: rest =>
    if validIntDigits rest then Option.some (Int.ofNat (digitsValue rest)) else Option.none
  | '-' :: rest =>
    if validIntDigits rest then Option.some (-(Int.ofNat (digitsValue rest))) else Option.none
  | t =>
    if validIntDigits t then Option.some (Int.ofNat (digitsValue t)) else Option.none

/-- Split at the first dot, when one occurs. -/
def splitAtDot : List Char → List Char × Option (List Char)
  | [] => ([], Option.none)
  | c :: cs =>
    if c = '.' then ([], Option.some cs)
    else
      let p := splitAtDot cs
      (c :: p.1, p.2)

/-- Unsigned core of a Python float literal in the plain decimal forms the
configuration strings use: digits, digits dot digits, digits dot, or dot
digits (exponent and special forms are out of scope of this service). -/
def pyFloatCore (l : List Char) : Option ℚ :=
  match splitAtDot l with
  | (intPart, Option.none) =>
    if !intPart.isEmpty && intPart.all isDigitChar then
      Option.some ((digitsValue intPart : ℚ))
    else Option.none
  | (intPart, Option.some frac) =>
    if intPart.all isDigitChar && frac.all isDigitChar
        && (!intPart.isEmpty || !frac.isEmpty) then
      Option.some ((digitsValue intPart : ℚ) + (digitsValue frac : ℚ) / (10 ^ frac.length : ℚ))
    else Option.none

/-- Python float(str) on the decimal forms above: strip whitespace, take an
optional sign, then the unsigned core. -/
def pyFloat (s : String) : Option ℚ :=
  match pyStrip s.toList with
  | '+' :: rest => pyFloatCore rest
  | '-' :: rest => (pyFloatCore rest).map (fun q => -q)
  | t => pyFloatCore t

/-- Value held by a resolved configuration slot before numeric conversion:
either the typed value taken from the override model or the raw string
taken from the environment, mirroring that resolve_override returns
whichever of the two sources applied. -/
abbrev IntOrStr := Int ⊕ String

/-- Rat-or-string variant for spawn_rate slots. -/
abbrev RatOrStr := ℚ ⊕ String

/-- Python int(value) on a resolved slot: an int passes through, a string
goes through int() parsing. -/
def pyIntOf : IntOrStr → Option Int
  | Sum.inl i => Option.some i
  | Sum.inr s => pyInt s

/-- Python float(value) on a resolved slot. -/
def pyFloatOf : RatOrStr → Option ℚ
  | Sum.inl q => Option.some q
  | Sum.inr s => pyFloat s

/-- os.environ.get(key, default). -/
def envGet (env : Env) (k : String) (default : String) : String :=
  (env k).getD default

/-- Embedding of resolve_override (load_test_helper.py lines 100-109): a
None override falls to the default factory; an override whose field is None
falls to the default factory; otherwise the field value wins. -/
def resolve_override {α : Type} (override : Option TestOverride)
    (field : TestOverride → Option α) (default_factory : Unit → α) : α :=
  match override with
  | Option.none => default_factory ()
  | Option.some o =>
    match field o with
    | Option.none => default_factory ()
    | Option.some v => v

/-- Embedding of resolve_host (load_test_helper.py lines 112-120): a truthy
override host wins; else a truthy LOCUST_HOST wins; else the value of the
named environment variable is returned as is. Truthiness means present and
non-empty. -/
def resolve_host (override : Option TestOverride) (env_var : String)
    (env : Env) : Option String :=
  if pyTruthyStr (override.bind (fun o => o.host)) then override.bind (fun o => o.host)
  else if pyTruthyStr (env "LOCUST_HOST") then env "LOCUST_HOST"
  else env env_var

/-- Duration slot of run_chat_test (lines 126-132):
int(resolve_override(override, duration_seconds, env get with default 60)). -/
def chatDurationSeconds (override : Option TestOverride) (env : Env) : Option Int :=
  pyIntOf (resolve_override override (fun o => o.duration_seconds.map Sum.inl)
    (fun _ => Sum.inr (envGet env "LOCUST_CHAT_DURATION_SECONDS" "60")))

/-- User-count slot of run_chat_test (lines 133-139), default 1. -/
def chatUserCount (override : Option TestOverride) (env : Env) : Option Int :=
  pyIntOf (resolve_override override (fun o => o.user_count.map Sum.inl)
    (fun _ => Sum.inr (envGet env "LOCUST_CHAT_USER_COUNT" "1")))

/-- Spawn-rate slot of run_chat_test (lines 140-146), default 1.0. -/
def chatSpawnRate (override : Option TestOverride) (env : Env) : Option ℚ :=
  pyFloatOf (resolve_override override (fun o => o.spawn_rate.map Sum.inl)
    (fun _ => Sum.inr (envGet env "LOCUST_CHAT_SPAWN_RATE" "1.0")))

/-- Embedding of run_chat_test (load_test_helper.py lines 123-157): resolve
the four configuration slots, then invoke run_locust_load_test with the
chat user class; a failed int() or float() conversion raises ValueError. -/
def run_chat_test (override : Option TestOverride) (env : Env)
    (overhead_pre : Option (List ℚ)) (outcome : LocustRunOutcome) :
    Except RunError (List RunEvent × PyVal) :=
  match chatDurationSeconds override env with
  | Option.none => Except.error (RunError.valueError "invalid literal for int with base 10")
  | Option.some duration_seconds =>
    match chatUserCount override env with
    | Option.none => Except.error (RunError.valueError "invalid literal for int with base 10")
    | Option.some user_count =>
      match chatSpawnRate override env with
      | Option.none => Except.error (RunError.valueError "could not convert string to float")
      | Option.some spawn_rate =>
        run_locust_load_test duration_seconds user_count spawn_rate
          (resolve_host override "LOCUST_CHAT_HOST" env) ["MyUser"] env
          overhead_pre outcome

/-- Embedding of the helper _resolve_duration_seconds (lines 249-258):
resolve the duration slot against the given environment variable and
default, then int(); a conversion failure raises ValueError with a message
naming the variable. -/
def _resolve_duration_seconds (override : Option TestOverride) (env_var : String)
    (default_value : String) (env : Env) : Except RunError Int :=
  match pyIntOf (resolve_override override (fun o => o.duration_seconds.map Sum.inl)
      (fun _ => Sum.inr (envGet env env_var default_value))) with
  | Option.some n => Except.ok n
  | Option.none =>
    Except.error (RunError.valueError ("Invalid duration_seconds provided for " ++ env_var))

/-- Embedding of calculate_expected_run_duration (lines 261-269): a None
payload becomes the empty request; the three per-test durations are
resolved (chat, responses, embeddings, each with default 60) and the sum of
their values clamped below at zero is returned; a resolution failure
propagates as the ValueError. -/
def calculate_expected_run_duration (payload : Option LoadTestRequest)
    (env : Env) : Except RunError Int :=
  let p := payload.getD {}
  match _resolve_duration_seconds p.chat "LOCUST_CHAT_DURATION_SECONDS" "60" env with
  | Except.error e => Except.error e
  | Except.ok d1 =>
    match _resolve_duration_seconds p.responses "LOCUST_RESPONSES_DURATION_SECONDS" "60" env with
    | Except.error e => Except.error e
    | Except.ok d2 =>
      match _resolve_duration_seconds p.embeddings "LOCUST_EMBEDDINGS_DURATION_SECONDS" "60" env with
      | Except.error e => Except.error e
      | Except.ok d3 => Except.ok (max d1 0 + max d2 0 + max d3 0)

/-- Names of the supported tests, the keys of SUPPORTED_TESTS
(load_test_helper.py lines 234-238). -/
def SUPPORTED_TESTS : List String := ["chat", "responses", "embeddings"]

/-- The predefined intensity level configurations of server.py lines 12-43:
each preset sets duration, user count and spawn rate and leaves the host
unset. -/
def INTENSITY_LEVELS : List (String × TestOverride) :=
  [("light", { duration_seconds := Option.some 300, user_count := Option.some 1000,
               spawn_rate := Option.some 500 }),
   ("normal", { duration_seconds := Option.some 600, user_count := Option.some 1000,
                spawn_rate := Option.some 500 }),
   ("medium", { duration_seconds := Option.some 1200, user_count := Option.some 1000,
                spawn_rate := Option.some 500 }),
   ("intense", { duration_seconds := Option.some 1800, user_count := Option.some 1000,
                 spawn_rate := Option.some 500 }),
   ("OOM", { duration_seconds := Option.some 36000, user_count := Option.some 1000,
             spawn_rate := Option.some 500 })]

/-- Dictionary lookup INTENSITY_LEVELS.get(name). -/
def lookupLevel (name : String) : Option TestOverride :=
  (INTENSITY_LEVELS.find? (fun p => p.1 == name)).map (fun p => p.2)

/-- One field of the merge in server.py lines 146-151: the request field
when the request is present and the field is not None, else the preset
field. -/
def mergeField {α : Type} (request : Option TestOverride)
    (f : TestOverride → Option α) (preset : TestOverride) : Option α :=
  match request with
  | Option.some r =>
    match f r with
    | Option.some v => Option.some v
    | Option.none => f preset
  | Option.none => f preset

/-- The final_override of run_load_test_with_intensity (server.py lines
146-151): the field-wise merge of the optional request body over the
intensity preset. -/
def mergeIntensity (request : Option TestOverride) (preset : TestOverride) :
    TestOverride :=
  { duration_seconds := mergeField request (fun t => t.duration_seconds) preset,
    user_count := mergeField request (fun t => t.user_count) preset,
    spawn_rate := mergeField request (fun t => t.spawn_rate) preset,
    host := mergeField request (fun t => t.host) preset }

/-- Optional int as a JSON-like value. -/
def optIntVal : Option Int → PyVal
  | Option.some i => PyVal.int i
  | Option.none => PyVal.pynone

/-- Optional rational as a JSON-like value. -/
def optRatVal : Option ℚ → PyVal
  | Option.some q => PyVal.rat q
  | Option.none => PyVal.pynone

/-- Optional string as a JSON-like value. -/
def optStrVal : Option String → PyVal
  | Option.some s => PyVal.str s
  | Option.none => PyVal.pynone

/-- The configuration block the intensity endpoint echoes (server.py lines
166-171): the four fields of the merged override. -/
def configurationDict (fo : TestOverride) : PyVal :=
  PyVal.dict
    [("duration_seconds", optIntVal fo.duration_seconds),
     ("user_count", optIntVal fo.user_count),
     ("spawn_rate", optRatVal fo.spawn_rate),
     ("host", optStrVal fo.host)]

/-- Embedding of the endpoint run_load_test_with_intensity (server.py lines
116-173), after the bearer-token check: an unknown intensity level is a 400,
an unknown test name is a 404; otherwise the request body is merged over
the preset and the selected runner is invoked with the merged override (the
runner, which drives the external Locust engine, is passed as a function);
a runner exception becomes a 500, and a runner result is wrapped in the
response dict echoing the test, the level and the merged configuration. -/
def run_load_test_with_intensity (test_name : String) (intensity_level : String)
    (request : Option TestOverride)
    (runner : TestOverride → Except RunError PyVal) : Except HttpError PyVal :=
  match lookupLevel intensity_level with
  | Option.none =>
    Except.error ⟨400, "Unsupported intensity level " ++ intensity_level ++ "."⟩
  | Option.some intensity_config =>
    if !SUPPORTED_TESTS.contains test_name then
      Except.error ⟨404, "Unsupported load test " ++ test_name ++ "."⟩
    else
      let final_override := mergeIntensity request intensity_config
      match runner final_override with
      | Except.error _ =>
        Except.error ⟨500, "Failed to execute " ++ test_name ++ " load test."⟩
      | Except.ok result =>
        Except.ok (PyVal.dict
          [("test", PyVal.str test_name),
           ("intensity_level", PyVal.str intensity_level),
           ("configuration", configurationDict final_override),
           ("result", result)])

/-- One per-interaction outcome as in the specification data model:
method and name labels, elapsed time, a success flag and an error text. -/
structure OutcomeRecord where
  methodLabel : String
  nameLabel : String
  elapsedMs : ℚ
  succeeded : Bool
  errorText : String
deriving DecidableEq, Repr

/-- One grouped error line of the report. -/
structure ErrorSummary where
  methodLabel : String
  nameLabel : String
  occurrenceCount : Nat
  errorText : String
deriving DecidableEq, Repr

/-- Grouping key of an outcome. -/
def outcomeKey (o : OutcomeRecord) : String × String × String :=
  (o.methodLabel, o.nameLabel, o.errorText)

/-- Failed outcomes of a run. -/
def failedOutcomes (outcomes : List OutcomeRecord) : List OutcomeRecord :=
  outcomes.filter (fun o => !o.succeeded)

/-- Number of failed outcomes of a run. -/
def failureCount (outcomes : List OutcomeRecord) : Nat :=
  (failedOutcomes outcomes).length

/-- Number of occurrences of a grouping key in a list of keys. -/
def keyCount (keys : List (String × String × String))
    (k : String × String × String) : Nat :=
  keys.countP (fun x => x = k)

/-- Modelled from the spec: the error grouping of the Metrics Aggregator.
The statistics engine that groups failures is the external Locust library
(env.stats.errors read at load_test_helper.py lines 324-332), not code under
src, so the grouping is modelled from the specification: outcomes with
succeeded false are grouped by the key (methodLabel, nameLabel, errorText)
and each group carries its occurrence count. -/
def groupErrors (outcomes : List OutcomeRecord) : List ErrorSummary :=
  let keys := (failedOutcomes outcomes).map outcomeKey
  keys.dedup.map (fun k =>
    { methodLabel := k.1, nameLabel := k.2.1,
      occurrenceCount := keyCount keys k, errorText := k.2.2 })

/-- Environment holding only the required API key, used as a concrete
input in witnesses. -/
def keyEnv : Env :=
  fun k => if k = "LOCUST_API_KEY" then Option.some "test-key" else Option.none

/-- Concrete quiet engine outcome used in witnesses and counterexamples:
no overhead samples, all stats zero, no errors. -/
def cexOutcome : LocustRunOutcome :=
  { samplesDuring := [],
    total := { num_requests := 0, num_failures := 0, avg_response_time := 0,
               response_time_percentile := fun _ => 0, max_response_time := 0,
               total_rps := 0, total_fail_per_sec := 0 },
    statErrors := [] }

/-- Concrete engine outcome with overhead samples, used in witnesses. -/
def demoOutcome : LocustRunOutcome :=
  { samplesDuring := [10, 20, 30],
    total := { num_requests := 7, num_failures := 2, avg_response_time := 120,
               response_time_percentile := fun _ => 150, max_response_time := 300,
               total_rps := 2, total_fail_per_sec := 1 },
    statErrors := [{ method := Option.some "POST", name := Option.some "chat",
                     occurrences := 2, error := "boom" }] }

/-- Concrete outcome list with one success and three failures in two error
groups, used as a witness input. -/
def demoOutcomes : List OutcomeRecord :=
  [{ methodLabel := "POST", nameLabel := "chat", elapsedMs := 100,
     succeeded := true, errorText := "" },
   { methodLabel := "POST", nameLabel := "chat", elapsedMs := 150,
     succeeded := false, errorText := "boom" },
   { methodLabel := "GET", nameLabel := "embed", elapsedMs := 90,
     succeeded := false, errorText := "timeout" },
   { methodLabel := "POST", nameLabel := "chat", elapsedMs := 140,
     succeeded := false, errorText := "boom" }]

theorem isEmpty_false_of_ne_nil {α : Type} {l : List α} (h : l ≠ []) :
    l.isEmpty = false := by
  cases l with
  | nil => exact absurd rfl h
  | cons a t => rfl

theorem run_locust_ok (duration_seconds user_count : Int) (spawn_rate : ℚ)
    (host : Option String) (user_classes : List String) (env : Env)
    (pre : Option (List ℚ)) (outcome : LocustRunOutcome)
    (hc : user_classes ≠ []) (hk : pyTruthyStr (env "LOCUST_API_KEY") = true) :
    run_locust_load_test duration_seconds user_count spawn_rate host user_classes
        env pre outcome
      = Except.ok
          ([RunEvent.clearOverhead, RunEvent.createRunner, RunEvent.runnerStart,
            RunEvent.scheduleQuit, RunEvent.joinRunner],
           PyVal.dict
             [("duration_seconds", PyVal.int duration_seconds),
              ("user_count", PyVal.int user_count),
              ("spawn_rate", PyVal.rat spawn_rate),
              ("requests", PyVal.int outcome.total.num_requests),
              ("failures", PyVal.int outcome.total.num_failures),
              ("avg_response_time_ms", PyVal.rat outcome.total.avg_response_time),
              ("median_response_time_ms",
                PyVal.rat (outcome.total.response_time_percentile (1 / 2))),
              ("p95_response_time_ms",
                PyVal.rat (outcome.total.response_time_percentile (95 / 100))),
              ("max_response_time_ms", PyVal.rat outcome.total.max_response_time),
              ("requests_per_second", PyVal.rat outcome.total.total_rps),
              ("failures_per_second", PyVal.rat outcome.total.total_fail_per_sec),
              ("errors", PyVal.list (outcome.statErrors.map errorEntry)),
              ("overhead_summary", overheadSummaryDict outcome.samplesDuring)]) := by
  simp [run_locust_load_test, isEmpty_false_of_ne_nil hc, hk, List.drop_length]

/-- C1 counterexample: a run with target concurrency 0 and spawn rate -1,
both non-positive, is not rejected: the precondition phase passes and the
runner start event occurs, so Virtual User spawning begins. -/
theorem run_accepts_nonpositive_rate_and_count :
    Except.map Prod.fst
        (run_locust_load_test 60 0 (-1) Option.none ["MyUser"] keyEnv
          (Option.some []) cexOutcome)
      = Except.ok [RunEvent.clearOverhead, RunEvent.createRunner, RunEvent.runnerStart,
          RunEvent.scheduleQuit, RunEvent.joinRunner] ∧
    (0 : Int) ≤ 0 ∧ (-1 : ℚ) ≤ 0 := by
  refine ⟨?_, by norm_num, by norm_num⟩
  rfl

/-- C1, amended: run_locust_load_test performs no validation of spawn rate
or target concurrency; its only precondition checks are a non-empty
user-class list and a truthy LOCUST_API_KEY, so whenever those hold the run
proceeds and the runner is started, even for non-positive spawn rate or
user count. -/
theorem run_no_rate_or_count_precondition (duration_seconds user_count : Int)
    (spawn_rate : ℚ) (host : Option String) (user_classes : List String)
    (env : Env) (pre : Option (List ℚ)) (outcome : LocustRunOutcome)
    (hc : user_classes ≠ []) (hk : pyTruthyStr (env "LOCUST_API_KEY") = true) :
    ∃ tr rep,
      run_locust_load_test duration_seconds user_count spawn_rate host user_classes
          env pre outcome = Except.ok (tr, rep) ∧
      RunEvent.runnerStart ∈ tr := by
  exact ⟨_, _, run_locust_ok duration_seconds user_count spawn_rate host user_classes
    env pre outcome hc hk, by decide⟩

/-- Witness for run_no_rate_or_count_precondition at user count 0 and spawn
rate -1. -/
theorem run_no_rate_or_count_precondition_witness :
    (run_locust_load_test 60 0 (-1) Option.none ["MyUser"] keyEnv
      (Option.some []) cexOutcome).isOk = true := by
  obtain ⟨tr, rep, h, _⟩ := run_no_rate_or_count_precondition 60 0 (-1) Option.none
    ["MyUser"] keyEnv (Option.some []) cexOutcome (by simp) (by rfl)
  rw [h]; rfl

/-- C2 counterexample: a credential that is present in the environment but
empty still fails the precondition check, so presence of the credential
together with a non-empty user-class list does not guarantee that the check
passes. -/
theorem run_rejects_present_empty_api_key :
    (fun k => if k = "LOCUST_API_KEY" then Option.some "" else Option.none : Env)
        "LOCUST_API_KEY" = Option.some "" ∧
    run_locust_load_test 60 1 1 Option.none ["MyUser"]
        (fun k => if k = "LOCUST_API_KEY" then Option.some "" else Option.none)
        (Option.some []) cexOutcome
      = Except.error
          (RunError.runtimeError "LOCUST_API_KEY environment variable is required.") := by
  exact ⟨rfl, rfl⟩

/-- C2, amended: when LOCUST_API_KEY is absent from the environment the run
fails immediately with a precondition error, and no report (hence no request
metric) is produced; for a non-empty user-class list the failure is the
RuntimeError naming the variable; conversely, when the credential is present
with a non-empty value and the user-class list is non-empty, the
precondition checks pass and the run completes with a report. -/
theorem api_key_precondition (duration_seconds user_count : Int) (spawn_rate : ℚ)
    (host : Option String) (user_classes : List String) (env : Env)
    (pre : Option (List ℚ)) (outcome : LocustRunOutcome) :
    (env "LOCUST_API_KEY" = Option.none →
      ∃ e, run_locust_load_test duration_seconds user_count spawn_rate host
        user_classes env pre outcome = Except.error e) ∧
    (user_classes ≠ [] → env "LOCUST_API_KEY" = Option.none →
      run_locust_load_test duration_seconds user_count spawn_rate host user_classes
          env pre outcome
        = Except.error
            (RunError.runtimeError "LOCUST_API_KEY environment variable is required.")) ∧
    (∀ v, env "LOCUST_API_KEY" = Option.some v → v ≠ "" → user_classes ≠ [] →
      ∃ tr rep, run_locust_load_test duration_seconds user_count spawn_rate host
        user_classes env pre outcome = Except.ok (tr, rep)) := by
  have herr : user_classes ≠ [] → env "LOCUST_API_KEY" = Option.none →
      run_locust_load_test duration_seconds user_count spawn_rate host user_classes
          env pre outcome
        = Except.error
            (RunError.runtimeError "LOCUST_API_KEY environment variable is required.") := by
    intro hc hk
    simp [run_locust_load_test, isEmpty_false_of_ne_nil hc, hk, pyTruthyStr]
  refine ⟨?_, herr, ?_⟩
  · intro hk
    by_cases hc : user_classes = []
    · subst hc
      exact ⟨RunError.valueError "At least one user class must be provided.",
        by simp [run_locust_load_test]⟩
    · exact ⟨_, herr hc hk⟩
  · intro v hv hne hc
    have hk : pyTruthyStr (env "LOCUST_API_KEY") = true := by
      rw [hv]; simp [pyTruthyStr, hne]
    exact ⟨_, _, run_locust_ok duration_seconds user_count spawn_rate host
      user_classes env pre outcome hc hk⟩

/-- Witness for api_key_precondition: with the key absent the run errors
out; with a non-empty key present it completes. -/
theorem api_key_precondition_witness :
    run_locust_load_test 60 1 1 Option.none ["MyUser"] (fun _ => Option.none)
        (Option.some []) cexOutcome
      = Except.error
          (RunError.runtimeError "LOCUST_API_KEY environment variable is required.") ∧
    (run_locust_load_test 60 1 1 Option.none ["MyUser"] keyEnv
      (Option.some []) cexOutcome).isOk = true := by
  constructor
  · exact (api_key_precondition 60 1 1 Option.none ["MyUser"] (fun _ => Option.none)
      (Option.some []) cexOutcome).2.1 (by simp) rfl
  · obtain ⟨tr, rep, h⟩ := (api_key_precondition 60 1 1 Option.none ["MyUser"] keyEnv
      (Option.some []) cexOutcome).2.2 "test-key" rfl (by decide) (by simp)
    rw [h]; rfl

/-- C3: whenever a run completes, the shared overhead collection was cleared
exactly once, strictly before the runner start, the returned overhead
summary is computed from exactly the samples appended during this run, and
the run result is independent of whatever samples were left in the shared
collection by a previous run. -/
theorem overhead_cleared_once_before_start (duration_seconds user_count : Int)
    (spawn_rate : ℚ) (host : Option String) (user_classes : List String)
    (env : Env) (pre1 pre2 : Option (List ℚ)) (outcome : LocustRunOutcome)
    (hc : user_classes ≠ []) (hk : pyTruthyStr (env "LOCUST_API_KEY") = true) :
    run_locust_load_test duration_seconds user_count spawn_rate host user_classes
        env pre1 outcome
      = run_locust_load_test duration_seconds user_count spawn_rate host
          user_classes env pre2 outcome ∧
    ∃ tr rep,
      run_locust_load_test duration_seconds user_count spawn_rate host user_classes
          env pre1 outcome = Except.ok (tr, rep) ∧
      tr.count RunEvent.clearOverhead = 1 ∧
      tr.indexOf RunEvent.clearOverhead < tr.indexOf RunEvent.runnerStart ∧
      PyVal.lookup rep "overhead_summary"
        = Option.some (overheadSummaryDict outcome.samplesDuring) := by
  refine ⟨?_, ⟨_, _, run_locust_ok duration_seconds user_count spawn_rate host
    user_classes env pre1 outcome hc hk, by decide, by decide, ?_⟩⟩
  · rw [run_locust_ok duration_seconds user_count spawn_rate host user_classes env
      pre1 outcome hc hk, run_locust_ok duration_seconds user_count spawn_rate host
      user_classes env pre2 outcome hc hk]
  · rfl

/-- Witness for overhead_cleared_once_before_start: two runs differing only
in the stale samples left over produce the same result, and the run
completes. -/
theorem overhead_cleared_once_before_start_witness :
    run_locust_load_test 30 2 1 Option.none ["MyUser"] keyEnv
        (Option.some [999, 998]) demoOutcome
      = run_locust_load_test 30 2 1 Option.none ["MyUser"] keyEnv
          (Option.some []) demoOutcome ∧
    (run_locust_load_test 30 2 1 Option.none ["MyUser"] keyEnv
      (Option.some [999, 998]) demoOutcome).isOk = true := by
  obtain ⟨heq, tr, rep, h, -, -, -⟩ := overhead_cleared_once_before_start 30 2 1
    Option.none ["MyUser"] keyEnv (Option.some [999, 998]) (Option.some [])
    demoOutcome (by simp) (by rfl)
  exact ⟨heq, by rw [h]; rfl⟩

/-- C7 counterexample: at a concrete completed run with a target host set,
the produced report has exactly the thirteen result keys, among which no
host key occurs, and the report equals the report of the identical run
without a host: the report does not echo the optional target host. -/
theorem run_report_omits_host :
    Except.map (fun p => PyVal.keys p.2)
        (run_locust_load_test 60 2 3 (Option.some "https://h.example") ["MyUser"]
          keyEnv (Option.some []) cexOutcome)
      = Except.ok ["duration_seconds", "user_count", "spawn_rate", "requests",
          "failures", "avg_response_time_ms", "median_response_time_ms",
          "p95_response_time_ms", "max_response_time_ms", "requests_per_second",
          "failures_per_second", "errors", "overhead_summary"] ∧
    ((["duration_seconds", "user_count", "spawn_rate", "requests",
          "failures", "avg_response_time_ms", "median_response_time_ms",
          "p95_response_time_ms", "max_response_time_ms", "requests_per_second",
          "failures_per_second", "errors", "overhead_summary"] : List String).contains
        "host") = false ∧
    run_locust_load_test 60 2 3 (Option.some "https://h.example") ["MyUser"] keyEnv
        (Option.some []) cexOutcome
      = run_locust_load_test 60 2 3 Option.none ["MyUser"] keyEnv
          (Option.some []) cexOutcome := by
  exact ⟨rfl, by decide, rfl⟩

/-- C7, amended: every completed run produces exactly one report, echoing
the duration, target concurrency and spawn rate of its configuration (but
not the optional target host, which has no key in the report) together with
the request count, failure count, average, median, 95th-percentile and
maximum latency, the requests-per-second and failures-per-second rates, the
error entries and the overhead summary. -/
theorem run_report_fields (duration_seconds user_count : Int) (spawn_rate : ℚ)
    (host : Option String) (user_classes : List String) (env : Env)
    (pre : Option (List ℚ)) (outcome : LocustRunOutcome)
    (hc : user_classes ≠ []) (hk : pyTruthyStr (env "LOCUST_API_KEY") = true) :
    ∃ tr, run_locust_load_test duration_seconds user_count spawn_rate host
        user_classes env pre outcome
      = Except.ok (tr, PyVal.dict
          [("duration_seconds", PyVal.int duration_seconds),
           ("user_count", PyVal.int user_count),
           ("spawn_rate", PyVal.rat spawn_rate),
           ("requests", PyVal.int outcome.total.num_requests),
           ("failures", PyVal.int outcome.total.num_failures),
           ("avg_response_time_ms", PyVal.rat outcome.total.avg_response_time),
           ("median_response_time_ms",
             PyVal.rat (outcome.total.response_time_percentile (1 / 2))),
           ("p95_response_time_ms",
             PyVal.rat (outcome.total.response_time_percentile (95 / 100))),
           ("max_response_time_ms", PyVal.rat outcome.total.max_response_time),
           ("requests_per_second", PyVal.rat outcome.total.total_rps),
           ("failures_per_second", PyVal.rat outcome.total.total_fail_per_sec),
           ("errors", PyVal.list (outcome.statErrors.map errorEntry)),
           ("overhead_summary", overheadSummaryDict outcome.samplesDuring)]) ∧
      ∀ rep, run_locust_load_test duration_seconds user_count spawn_rate host
          user_classes env pre outcome = Except.ok (tr, rep) →
        PyVal.lookup rep "host" = Option.none := by
  refine ⟨_, run_locust_ok duration_seconds user_count spawn_rate host user_classes
    env pre outcome hc hk, ?_⟩
  intro rep hrep
  rw [run_locust_ok duration_seconds user_count spawn_rate host user_classes env
    pre outcome hc hk] at hrep
  obtain ⟨-, rfl⟩ := Prod.mk.injEq .. ▸ (Except.ok.inj hrep)
  rfl

/-- Witness for run_report_fields at a concrete configuration. -/
theorem run_report_fields_witness :
    (run_locust_load_test 45 3 2 Option.none ["MyUser"] keyEnv
      (Option.some []) demoOutcome).isOk = true := by
  obtain ⟨tr, h, -⟩ := run_report_fields 45 3 2 Option.none ["MyUser"] keyEnv
    (Option.some []) demoOutcome (by simp) (by rfl)
  rw [h]; rfl

theorem foldl_min_le_init (xs : List ℚ) (a : ℚ) : xs.foldl min a ≤ a := by
  induction xs generalizing a with
  | nil => simp
  | cons x xs ih => exact le_trans (ih (min a x)) (min_le_left a x)

theorem foldl_min_mem (xs : List ℚ) (a : ℚ) :
    xs.foldl min a = a ∨ xs.foldl min a ∈ xs := by
  induction xs generalizing a with
  | nil => exact Or.inl rfl
  | cons x xs ih =>
    simp only [List.foldl_cons]
    rcases ih (min a x) with h | h
    · rw [h]
      rcases le_total a x with hax | hxa
      · exact Or.inl (min_eq_left hax)
      · exact Or.inr (by simp [min_eq_right hxa])
    · exact Or.inr (List.mem_cons_of_mem x h)

theorem foldl_min_le_mem (xs : List ℚ) (a x : ℚ) (hx : x ∈ xs) :
    xs.foldl min a ≤ x := by
  induction xs generalizing a with
  | nil => cases hx
  | cons y ys ih =>
    simp only [List.foldl_cons]
    rcases List.mem_cons.mp hx with rfl | h
    · exact le_trans (foldl_min_le_init ys (min a x)) (min_le_right a x)
    · exact ih (min a y) h

theorem foldl_max_init_le (xs : List ℚ) (a : ℚ) : a ≤ xs.foldl max a := by
  induction xs generalizing a with
  | nil => simp
  | cons x xs ih => exact le_trans (le_max_left a x) (ih (max a x))

theorem foldl_max_mem (xs : List ℚ) (a : ℚ) :
    xs.foldl max a = a ∨ xs.foldl max a ∈ xs := by
  induction xs generalizing a with
  | nil => exact Or.inl rfl
  | cons x xs ih =>
    simp only [List.foldl_cons]
    rcases ih (max a x) with h | h
    · rw [h]
      rcases le_total a x with hax | hxa
      · exact Or.inr (by simp [max_eq_right hax])
      · exact Or.inl (max_eq_left hxa)
    · exact Or.inr (List.mem_cons_of_mem x h)

theorem foldl_max_mem_le (xs : List ℚ) (a x : ℚ) (hx : x ∈ xs) :
    x ≤ xs.foldl max a := by
  induction xs generalizing a with
  | nil => cases hx
  | cons y ys ih =>
    simp only [List.foldl_cons]
    rcases List.mem_cons.mp hx with rfl | h
    · exact le_trans (le_max_right a x) (foldl_max_init_le ys (max a x))
    · exact ih (max a y) h

theorem listMin_is_least (l : List ℚ) (hl : l ≠ []) :
    listMin l ∈ l ∧ ∀ x ∈ l, listMin l ≤ x := by
  cases l with
  | nil => exact absurd rfl hl
  | cons x xs =>
    constructor
    · rcases foldl_min_mem xs x with h | h
      · rw [listMin, h]; exact List.mem_cons_self x xs
      · exact List.mem_cons_of_mem x (by rw [listMin]; exact h)
    · intro y hy
      rcases List.mem_cons.mp hy with rfl | h
      · exact foldl_min_le_init xs y
      · exact foldl_min_le_mem xs x y h

theorem listMax_is_greatest (l : List ℚ) (hl : l ≠ []) :
    listMax l ∈ l ∧ ∀ x ∈ l, x ≤ listMax l := by
  cases l with
  | nil => exact absurd rfl hl
  | cons x xs =>
    constructor
    · rcases foldl_max_mem xs x with h | h
      · rw [listMax, h]; exact List.mem_cons_self x xs
      · exact List.mem_cons_of_mem x (by rw [listMax]; exact h)
    · intro y hy
      rcases List.mem_cons.mp hy with rfl | h
      · exact foldl_max_init_le xs y
      · exact foldl_max_mem_le xs x y h

/-- C4: for every non-empty list of overhead samples collected during a run,
the overhead summary has count equal to the list length, min and max equal
to the minimum and maximum sample, avg equal to the arithmetic mean, and
median equal to the statistical median (middle of a sorted permutation for
odd length, average of the two middles for even length); recording
[10, 20, 30] yields count 3, min 10, max 30, avg 20, median 20; for an
empty sample list the summary contains only count 0. -/
theorem overhead_summary_spec (l : List ℚ) :
    (l = [] → overheadSummaryDict l = PyVal.dict [("count", PyVal.int 0)]) ∧
    (l ≠ [] →
      overheadSummaryDict l = PyVal.dict
        [("count", PyVal.int l.length),
         ("min_ms", PyVal.rat (listMin l)),
         ("max_ms", PyVal.rat (listMax l)),
         ("avg_ms", PyVal.rat (l.sum / l.length)),
         ("median_ms", PyVal.rat (pyMedian l))] ∧
      (listMin l ∈ l ∧ ∀ x ∈ l, listMin l ≤ x) ∧
      (listMax l ∈ l ∧ ∀ x ∈ l, x ≤ listMax l) ∧
      ∃ s : List ℚ, s.Perm l ∧ s.Sorted (fun a b => a ≤ b) ∧
        pyMedian l = (if l.length % 2 = 1 then s.getD (l.length / 2) 0
          else (s.getD (l.length / 2 - 1) 0 + s.getD (l.length / 2) 0) / 2)) ∧
    overheadSummaryDict [10, 20, 30] = PyVal.dict
      [("count", PyVal.int 3), ("min_ms", PyVal.rat 10), ("max_ms", PyVal.rat 30),
       ("avg_ms", PyVal.rat 20), ("median_ms", PyVal.rat 20)] := by
  refine ⟨fun h => by simp [h, overheadSummaryDict], fun h => ⟨?_, listMin_is_least l h,
    listMax_is_greatest l h, ?_⟩, ?_⟩
  · simp [overheadSummaryDict, fmean, List.isEmpty_iff, h]
  · refine ⟨l.insertionSort (fun a b => a ≤ b), List.perm_insertionSort _ l,
      List.sorted_insertionSort _ l, rfl⟩
  · simp [overheadSummaryDict, fmean, listMin, listMax, pyMedian, List.insertionSort,
      List.orderedInsert]
    norm_num

/-- Witness for overhead_summary_spec at the concrete sample list
[10, 20, 30]. -/
theorem overhead_summary_spec_witness :
    overheadSummaryDict [10, 20, 30] = PyVal.dict
      [("count", PyVal.int 3), ("min_ms", PyVal.rat 10), ("max_ms", PyVal.rat 30),
       ("avg_ms", PyVal.rat 20), ("median_ms", PyVal.rat 20)] ∧
    overheadSummaryDict [] = PyVal.dict [("count", PyVal.int 0)] := by
  exact ⟨(overhead_summary_spec [10, 20, 30]).2.2,
    (overhead_summary_spec []).1 rfl⟩

theorem pyInt_60 : pyInt "60" = Option.some 60 := by decide

theorem pyInt_1 : pyInt "1" = Option.some 1 := by decide

theorem pyFloat_one : pyFloat "1.0" = Option.some 1 := by
  have h : pyFloat "1.0" = Option.some ((1 : ℚ) + (0 : ℚ) / (10 : ℚ)) := by rfl
  rw [h]; norm_num

/-- C5 counterexample: an explicit per-request host override that is present
but an empty string (not None) does not win; the global host environment
variable is used instead, so a present override field does not always take
precedence over the later sources. -/
theorem resolve_host_empty_override_loses :
    resolve_host (Option.some { host := Option.some "" }) "LOCUST_CHAT_HOST"
        (fun k => if k = "LOCUST_HOST" then Option.some "https://global.example"
          else Option.none)
      = Option.some "https://global.example" ∧
    ((Option.some "" : Option String) == Option.some "https://global.example") = false := by
  exact ⟨rfl, by decide⟩

/-- C5, amended: each chat-test configuration parameter resolves with the
precedence explicit per-request override first, then (for the host only)
the global LOCUST_HOST variable, then the named-test environment variable,
then the hardcoded default (60 seconds, 1 user, spawn rate 1.0, no host); a
present duration, user-count or spawn-rate override always wins and an
absent (None) field falls through to the next source, while a host override
wins only when it is a non-empty string: an empty-string host override (or
an empty global host value) falls through like an absent one. The responses
and embeddings tests use the same resolver with their own variable names. -/
theorem chat_config_precedence (override : Option TestOverride) (env : Env) :
    (∀ o d, override = Option.some o → o.duration_seconds = Option.some d →
      chatDurationSeconds override env = Option.some d) ∧
    (override.bind (fun o => o.duration_seconds) = Option.none →
      ∀ s, env "LOCUST_CHAT_DURATION_SECONDS" = Option.some s →
        chatDurationSeconds override env = pyInt s) ∧
    (override.bind (fun o => o.duration_seconds) = Option.none →
      env "LOCUST_CHAT_DURATION_SECONDS" = Option.none →
      chatDurationSeconds override env = Option.some 60) ∧
    (∀ o u, override = Option.some o → o.user_count = Option.some u →
      chatUserCount override env = Option.some u) ∧
    (override.bind (fun o => o.user_count) = Option.none →
      ∀ s, env "LOCUST_CHAT_USER_COUNT" = Option.some s →
        chatUserCount override env = pyInt s) ∧
    (override.bind (fun o => o.user_count) = Option.none →
      env "LOCUST_CHAT_USER_COUNT" = Option.none →
      chatUserCount override env = Option.some 1) ∧
    (∀ o r, override = Option.some o → o.spawn_rate = Option.some r →
      chatSpawnRate override env = Option.some r) ∧
    (override.bind (fun o => o.spawn_rate) = Option.none →
      ∀ s, env "LOCUST_CHAT_SPAWN_RATE" = Option.some s →
        chatSpawnRate override env = pyFloat s) ∧
    (override.bind (fun o => o.spawn_rate) = Option.none →
      env "LOCUST_CHAT_SPAWN_RATE" = Option.none →
      chatSpawnRate override env = Option.some 1) ∧
    (∀ o hs, override = Option.some o → o.host = Option.some hs → hs ≠ "" →
      resolve_host override "LOCUST_CHAT_HOST" env = Option.some hs) ∧
    (pyTruthyStr (override.bind fun o => o.host) = false →
      ∀ g, env "LOCUST_HOST" = Option.some g → g ≠ "" →
        resolve_host override "LOCUST_CHAT_HOST" env = Option.some g) ∧
    (pyTruthyStr (override.bind fun o => o.host) = false →
      pyTruthyStr (env "LOCUST_HOST") = false →
      resolve_host override "LOCUST_CHAT_HOST" env = env "LOCUST_CHAT_HOST") := by
  refine ⟨?_, ?_, ?_, ?_, ?_, ?_, ?_, ?_, ?_, ?_, ?_, ?_⟩
  · rintro o d rfl hd
    simp [chatDurationSeconds, resolve_override, hd, pyIntOf]
  · intro hnone s hs
    rcases override with _ | o
    · simp [chatDurationSeconds, resolve_override, envGet, hs, pyIntOf]
    · simp only [Option.some_bind] at hnone
      simp [chatDurationSeconds, resolve_override, hnone, envGet, hs, pyIntOf]
  · intro hnone henv
    have hdef : chatDurationSeconds override env = pyInt "60" := by
      rcases override with _ | o
      · simp [chatDurationSeconds, resolve_override, envGet, henv, pyIntOf]
      · simp only [Option.some_bind] at hnone
        simp [chatDurationSeconds, resolve_override, hnone, envGet, henv, pyIntOf]
    rw [hdef, pyInt_60]
  · rintro o u rfl hu
    simp [chatUserCount, resolve_override, hu, pyIntOf]
  · intro hnone s hs
    rcases override with _ | o
    · simp [chatUserCount, resolve_override, envGet, hs, pyIntOf]
    · simp only [Option.some_bind] at hnone
      simp [chatUserCount, resolve_override, hnone, envGet, hs, pyIntOf]
  · intro hnone henv
    have hdef : chatUserCount override env = pyInt "1" := by
      rcases override with _ | o
      · simp [chatUserCount, resolve_override, envGet, henv, pyIntOf]
      · simp only [Option.some_bind] at hnone
        simp [chatUserCount, resolve_override, hnone, envGet, henv, pyIntOf]
    rw [hdef, pyInt_1]
  · rintro o r rfl hr
    simp [chatSpawnRate, resolve_override, hr, pyFloatOf]
  · intro hnone s hs
    rcases override with _ | o
    · simp [chatSpawnRate, resolve_override, envGet, hs, pyFloatOf]
    · simp only [Option.some_bind] at hnone
      simp [chatSpawnRate, resolve_override, hnone, envGet, hs, pyFloatOf]
  · intro hnone henv
    have hdef : chatSpawnRate override env = pyFloat "1.0" := by
      rcases override with _ | o
      · simp [chatSpawnRate, resolve_override, envGet, henv, pyFloatOf]
      · simp only [Option.some_bind] at hnone
        simp [chatSpawnRate, resolve_override, hnone, envGet, henv, pyFloatOf]
    rw [hdef, pyFloat_one]
  · rintro o hs rfl hh hne
    simp [resolve_host, hh, pyTruthyStr, hne]
  · intro hfalse g hg hne
    unfold resolve_host
    rw [hfalse, hg]
    simp [pyTruthyStr, hne]
  · intro hfalse hglobal
    simp [resolve_host, hfalse, hglobal]

/-- Witness for chat_config_precedence: a present duration override wins,
absent fields fall back to the hardcoded defaults, and an unset host chain
resolves to no host. -/
theorem chat_config_precedence_witness :
    chatDurationSeconds (Option.some { duration_seconds := Option.some 25 })
        (fun _ => Option.none) = Option.some 25 ∧
    chatDurationSeconds Option.none (fun _ => Option.none) = Option.some 60 ∧
    chatUserCount Option.none (fun _ => Option.none) = Option.some 1 ∧
    chatSpawnRate Option.none (fun _ => Option.none) = Option.some 1 ∧
    resolve_host Option.none "LOCUST_CHAT_HOST" (fun _ => Option.none)
      = Option.none := by
  refine ⟨(chat_config_precedence (Option.some { duration_seconds := Option.some 25 })
      (fun _ => Option.none)).1 _ 25 rfl rfl, ?_, ?_, ?_, ?_⟩
  · exact (chat_config_precedence Option.none (fun _ => Option.none)).2.2.1 rfl rfl
  · exact (chat_config_precedence Option.none
      (fun _ => Option.none)).2.2.2.2.2.1 rfl rfl
  · exact (chat_config_precedence Option.none
      (fun _ => Option.none)).2.2.2.2.2.2.2.2.1 rfl rfl
  · exact (chat_config_precedence Option.none
      (fun _ => Option.none)).2.2.2.2.2.2.2.2.2.2.2 rfl rfl

theorem keyCount_eq_count (l : List (String × String × String))
    (k : String × String × String) :
    keyCount l k = @List.count _ instBEqOfDecidableEq k l := rfl

/-- C6: grouping the failed outcomes of a run yields exactly one entry per
distinct (method label, name label, error text) combination occurring among
the failures, each entry carries the occurrence count of its combination,
and the occurrence counts sum to the failure count. -/
theorem error_grouping_partition (outcomes : List OutcomeRecord) :
    ((groupErrors outcomes).map
      (fun e => (e.methodLabel, e.nameLabel, e.errorText))).Nodup ∧
    (∀ k, k ∈ (groupErrors outcomes).map
        (fun e => (e.methodLabel, e.nameLabel, e.errorText)) ↔
      k ∈ (failedOutcomes outcomes).map outcomeKey) ∧
    (∀ e, e ∈ groupErrors outcomes →
      e.occurrenceCount = keyCount ((failedOutcomes outcomes).map outcomeKey)
        (e.methodLabel, e.nameLabel, e.errorText)) ∧
    ((groupErrors outcomes).map (fun e => e.occurrenceCount)).sum
      = failureCount outcomes := by
  have hmap : (groupErrors outcomes).map
      (fun e => (e.methodLabel, e.nameLabel, e.errorText))
      = ((failedOutcomes outcomes).map outcomeKey).dedup := by
    simp only [groupErrors, List.map_map]
    have hfun : ((fun (e : ErrorSummary) => (e.methodLabel, e.nameLabel, e.errorText))
        ∘ (fun (k : String × String × String) =>
            (⟨k.1, k.2.1, keyCount ((failedOutcomes outcomes).map outcomeKey) k, k.2.2⟩
              : ErrorSummary)))
        = id := funext fun k => rfl
    rw [hfun, List.map_id]
  refine ⟨?_, ?_, ?_, ?_⟩
  · rw [hmap]; exact List.nodup_dedup _
  · intro k; rw [hmap]; exact List.mem_dedup
  · intro e he
    simp only [groupErrors, List.mem_map] at he
    obtain ⟨k, -, rfl⟩ := he
    rfl
  · simp only [groupErrors, List.map_map]
    have hfun : ((fun (e : ErrorSummary) => e.occurrenceCount)
        ∘ (fun (k : String × String × String) =>
            (⟨k.1, k.2.1, keyCount ((failedOutcomes outcomes).map outcomeKey) k, k.2.2⟩
              : ErrorSummary)))
        = fun k => keyCount ((failedOutcomes outcomes).map outcomeKey) k :=
      funext fun k => rfl
    rw [hfun]
    have hsum : (((failedOutcomes outcomes).map outcomeKey).dedup.map
        (fun k => keyCount ((failedOutcomes outcomes).map outcomeKey) k)).sum
        = ((failedOutcomes outcomes).map outcomeKey).length := by
      have := List.sum_map_count_dedup_eq_length
        ((failedOutcomes outcomes).map outcomeKey)
      simpa [keyCount_eq_count] using this
    rw [hsum, List.length_map]
    rfl

/-- Witness for error_grouping_partition at a concrete outcome list with
three failures in two groups. -/
theorem error_grouping_partition_witness :
    ((groupErrors demoOutcomes).map (fun e => e.occurrenceCount)).sum
      = failureCount demoOutcomes ∧
    (("POST", "chat", "boom") ∈ (groupErrors demoOutcomes).map
        (fun e => (e.methodLabel, e.nameLabel, e.errorText)) ↔
      ("POST", "chat", "boom") ∈ (failedOutcomes demoOutcomes).map outcomeKey) ∧
    ({ methodLabel := "POST", nameLabel := "chat", occurrenceCount := 2,
       errorText := "boom" } : ErrorSummary).occurrenceCount
      = keyCount ((failedOutcomes demoOutcomes).map outcomeKey)
          ("POST", "chat", "boom") := by
  refine ⟨(error_grouping_partition demoOutcomes).2.2.2,
    (error_grouping_partition demoOutcomes).2.1 ("POST", "chat", "boom"),
    (error_grouping_partition demoOutcomes).2.2.1 _ (by decide)⟩

theorem eq_nil_of_isEmpty {α : Type} {l : List α} (h : l.isEmpty = true) :
    l = [] := by
  cases l with
  | nil => rfl
  | cons a t => simp at h

/-- C8: get_bearer_token fails with a 401 error if and only if the
authorization header is missing or empty, the scheme before the first space
is not case-insensitively bearer, or the token part after the scheme is
empty; otherwise it returns the token part with surrounding whitespace
stripped. -/
theorem get_bearer_token_spec (h : Option String) :
    (∀ e, get_bearer_token h = Except.error e → e.statusCode = 401) ∧
    ((∃ t, get_bearer_token h = Except.ok t) ↔
      ∃ s, h = Option.some s ∧ s ≠ "" ∧
        (partitionSpace s.toList).1.map Char.toLower = "bearer".toList ∧
        (partitionSpace s.toList).2 ≠ []) ∧
    (∀ s, h = Option.some s → s ≠ "" →
      (partitionSpace s.toList).1.map Char.toLower = "bearer".toList →
      (partitionSpace s.toList).2 ≠ [] →
      get_bearer_token h
        = Except.ok (String.mk (pyStrip (partitionSpace s.toList).2))) := by
  cases h with
  | none =>
    refine ⟨fun e he => ?_, by simp [get_bearer_token], fun s hs => by simp at hs⟩
    simp only [get_bearer_token] at he
    obtain rfl := Except.error.inj he
    rfl
  | some s =>
    by_cases hs : s = ""
    · subst hs
      refine ⟨fun e he => ?_, ?_, ?_⟩
      · simp only [get_bearer_token, if_pos rfl] at he
        obtain rfl := Except.error.inj he
        rfl
      · constructor
        · rintro ⟨t, ht⟩
          simp [get_bearer_token] at ht
        · rintro ⟨s, hss, hne, -⟩
          obtain rfl := Option.some.inj hss
          exact absurd rfl hne
      · intro s hss hne
        obtain rfl := Option.some.inj hss
        exact absurd rfl hne
    · by_cases hb : ((partitionSpace s.toList).1.map Char.toLower != "bearer".toList
          || (partitionSpace s.toList).2.isEmpty) = true
      · refine ⟨fun e he => ?_, ?_, ?_⟩
        · simp only [get_bearer_token, if_neg hs] at he
          rw [if_pos hb] at he
          obtain rfl := Except.error.inj he
          rfl
        · constructor
          · rintro ⟨t, ht⟩
            simp only [get_bearer_token, if_neg hs] at ht
            rw [if_pos hb] at ht
            cases ht
          · rintro ⟨s1, hss, -, hlow, hemp⟩
            obtain rfl := Option.some.inj hss
            rcases Bool.or_eq_true_iff.mp hb with hb1 | hb2
            · exact absurd hlow (bne_iff_ne.mp hb1)
            · exact absurd (eq_nil_of_isEmpty hb2) hemp
        · intro s1 hss hne hlow hemp
          obtain rfl := Option.some.inj hss
          rcases Bool.or_eq_true_iff.mp hb with hb1 | hb2
          · exact absurd hlow (bne_iff_ne.mp hb1)
          · exact absurd (eq_nil_of_isEmpty hb2) hemp
      · have hbf : ((partitionSpace s.toList).1.map Char.toLower != "bearer".toList
            || (partitionSpace s.toList).2.isEmpty) = false :=
          Bool.eq_false_iff.mpr hb
        obtain ⟨hb1, hb2⟩ := Bool.or_eq_false_iff.mp hbf
        have hlow : (partitionSpace s.toList).1.map Char.toLower = "bearer".toList :=
          bne_eq_false_iff_eq.mp hb1
        have hne2 : (partitionSpace s.toList).2 ≠ [] := by
          intro hnil
          rw [hnil] at hb2
          simp at hb2
        have hok : get_bearer_token (Option.some s)
            = Except.ok (String.mk (pyStrip (partitionSpace s.toList).2)) := by
          simp only [get_bearer_token, if_neg hs]
          rw [if_neg (by rw [hbf]; simp)]
        refine ⟨fun e he => ?_, ?_, ?_⟩
        · rw [hok] at he
          cases he
        · exact ⟨fun _ => ⟨s, rfl, hs, hlow, hne2⟩, fun _ => ⟨_, hok⟩⟩
        · intro s1 hss hne hl he
          obtain rfl := Option.some.inj hss
          exact hok

/-- Witness for get_bearer_token_spec at a concrete header with extra
whitespace around the token. -/
theorem get_bearer_token_spec_witness :
    get_bearer_token (Option.some "Bearer  abc ") = Except.ok "abc" := by
  have h := (get_bearer_token_spec (Option.some "Bearer  abc ")).2.2 "Bearer  abc "
    rfl (by decide) (by decide) (by decide)
  rw [h]; rfl

/-- C9: calculate_expected_run_duration returns the sum over the chat,
responses and embeddings tests of each resolved duration clamped below at
zero (a negative resolved duration contributes 0); a resolution fails with
the ValueError exactly when its resolved slot is an environment string that
int() cannot parse; and an empty payload with no duration environment
variables set yields 180. -/
theorem expected_run_duration_spec (payload : Option LoadTestRequest) (env : Env) :
    (∀ a b c,
      _resolve_duration_seconds (payload.getD {}).chat
          "LOCUST_CHAT_DURATION_SECONDS" "60" env = Except.ok a →
      _resolve_duration_seconds (payload.getD {}).responses
          "LOCUST_RESPONSES_DURATION_SECONDS" "60" env = Except.ok b →
      _resolve_duration_seconds (payload.getD {}).embeddings
          "LOCUST_EMBEDDINGS_DURATION_SECONDS" "60" env = Except.ok c →
      calculate_expected_run_duration payload env
        = Except.ok (max a 0 + max b 0 + max c 0)) ∧
    ((∃ e, calculate_expected_run_duration payload env = Except.error e) ↔
      ((∃ e, _resolve_duration_seconds (payload.getD {}).chat
          "LOCUST_CHAT_DURATION_SECONDS" "60" env = Except.error e) ∨
       (∃ e, _resolve_duration_seconds (payload.getD {}).responses
          "LOCUST_RESPONSES_DURATION_SECONDS" "60" env = Except.error e) ∨
       (∃ e, _resolve_duration_seconds (payload.getD {}).embeddings
          "LOCUST_EMBEDDINGS_DURATION_SECONDS" "60" env = Except.error e))) ∧
    (∀ override env_var dv,
      (∃ e, _resolve_duration_seconds override env_var dv env = Except.error e) ↔
      ∃ s, resolve_override override (fun o => o.duration_seconds.map Sum.inl)
          (fun _ => Sum.inr (envGet env env_var dv)) = Sum.inr s ∧
        pyInt s = Option.none) ∧
    calculate_expected_run_duration Option.none (fun _ => Option.none)
      = Except.ok 180 := by
  refine ⟨?_, ?_, ?_, by rfl⟩
  · intro a b c h1 h2 h3
    simp only [calculate_expected_run_duration, h1, h2, h3]
  · constructor
    · rintro ⟨e, he⟩
      rcases hr1 : _resolve_duration_seconds (payload.getD {}).chat
          "LOCUST_CHAT_DURATION_SECONDS" "60" env with e1 | a1
      · exact Or.inl ⟨e1, rfl⟩
      rcases hr2 : _resolve_duration_seconds (payload.getD {}).responses
          "LOCUST_RESPONSES_DURATION_SECONDS" "60" env with e2 | a2
      · exact Or.inr (Or.inl ⟨e2, rfl⟩)
      rcases hr3 : _resolve_duration_seconds (payload.getD {}).embeddings
          "LOCUST_EMBEDDINGS_DURATION_SECONDS" "60" env with e3 | a3
      · exact Or.inr (Or.inr ⟨e3, rfl⟩)
      rw [calculate_expected_run_duration] at he
      simp only [hr1, hr2, hr3] at he
      cases he
    · rintro (⟨e, he⟩ | ⟨e, he⟩ | ⟨e, he⟩)
      · exact ⟨e, by simp only [calculate_expected_run_duration, he]⟩
      · rcases hr1 : _resolve_duration_seconds (payload.getD {}).chat
            "LOCUST_CHAT_DURATION_SECONDS" "60" env with e1 | a1
        · exact ⟨e1, by simp only [calculate_expected_run_duration, hr1]⟩
        · exact ⟨e, by simp only [calculate_expected_run_duration, hr1, he]⟩
      · rcases hr1 : _resolve_duration_seconds (payload.getD {}).chat
            "LOCUST_CHAT_DURATION_SECONDS" "60" env with e1 | a1
        · exact ⟨e1, by simp only [calculate_expected_run_duration, hr1]⟩
        · rcases hr2 : _resolve_duration_seconds (payload.getD {}).responses
              "LOCUST_RESPONSES_DURATION_SECONDS" "60" env with e2 | a2
          · exact ⟨e2, by simp only [calculate_expected_run_duration, hr1, hr2]⟩
          · exact ⟨e, by simp only [calculate_expected_run_duration, hr1, hr2, he]⟩
  · intro override env_var dv
    rcases hres : resolve_override override (fun o => o.duration_seconds.map Sum.inl)
        (fun _ => Sum.inr (envGet env env_var dv)) with i | s
    · constructor
      · rintro ⟨e, he⟩
        simp only [_resolve_duration_seconds, hres, pyIntOf] at he
        cases he
      · rintro ⟨s, hss, -⟩
        simp at hss
    · rcases hpi : pyInt s with _ | n
      · constructor
        · rintro -
          exact ⟨s, rfl, hpi⟩
        · rintro -
          refine ⟨RunError.valueError ("Invalid duration_seconds provided for " ++ env_var), ?_⟩
          simp only [_resolve_duration_seconds, hres, pyIntOf, hpi]
      · constructor
        · rintro ⟨e, he⟩
          simp only [_resolve_duration_seconds, hres, pyIntOf, hpi] at he
          cases he
        · rintro ⟨s1, hss, hpn⟩
          obtain rfl := Sum.inr.inj hss
          rw [hpi] at hpn
          cases hpn

/-- Witness for expected_run_duration_spec: an empty payload with no
environment variables resolves each test to its default 60 seconds. -/
theorem expected_run_duration_spec_witness :
    calculate_expected_run_duration Option.none (fun _ => Option.none)
      = Except.ok (max 60 0 + max 60 0 + max 60 0) :=
  (expected_run_duration_spec Option.none (fun _ => Option.none)).1 60 60 60
    rfl rfl rfl

/-- C10: for every intensity-level run request with a recognized test name
and intensity level, the effective configuration is the field-wise merge of
the optional request body over the intensity preset (duration_seconds,
user_count, spawn_rate and host are each taken from the request when not
None and from the preset otherwise), and the successful response echoes
exactly this merged configuration. -/
theorem intensity_merge_spec (test_name intensity_level : String)
    (request : Option TestOverride) (preset : TestOverride)
    (runner : TestOverride → Except RunError PyVal) (v : PyVal)
    (hlevel : lookupLevel intensity_level = Option.some preset)
    (htest : SUPPORTED_TESTS.contains test_name = true)
    (hrun : runner (mergeIntensity request preset) = Except.ok v) :
    run_load_test_with_intensity test_name intensity_level request runner
      = Except.ok (PyVal.dict
          [("test", PyVal.str test_name),
           ("intensity_level", PyVal.str intensity_level),
           ("configuration", configurationDict (mergeIntensity request preset)),
           ("result", v)]) ∧
    (∀ r d, request = Option.some r → r.duration_seconds = Option.some d →
      (mergeIntensity request preset).duration_seconds = Option.some d) ∧
    (request.bind (fun r => r.duration_seconds) = Option.none →
      (mergeIntensity request preset).duration_seconds = preset.duration_seconds) ∧
    (∀ r u, request = Option.some r → r.user_count = Option.some u →
      (mergeIntensity request preset).user_count = Option.some u) ∧
    (request.bind (fun r => r.user_count) = Option.none →
      (mergeIntensity request preset).user_count = preset.user_count) ∧
    (∀ r q, request = Option.some r → r.spawn_rate = Option.some q →
      (mergeIntensity request preset).spawn_rate = Option.some q) ∧
    (request.bind (fun r => r.spawn_rate) = Option.none →
      (mergeIntensity request preset).spawn_rate = preset.spawn_rate) ∧
    (∀ r hs, request = Option.some r → r.host = Option.some hs →
      (mergeIntensity request preset).host = Option.some hs) ∧
    (request.bind (fun r => r.host) = Option.none →
      (mergeIntensity request preset).host = preset.host) := by
  refine ⟨?_, ?_, ?_, ?_, ?_, ?_, ?_, ?_, ?_⟩
  · simp only [run_load_test_with_intensity, hlevel, htest, hrun]
    simp
  · rintro r d rfl hd
    simp [mergeIntensity, mergeField, hd]
  · intro hnone
    rcases request with _ | r
    · simp [mergeIntensity, mergeField]
    · simp only [Option.some_bind] at hnone
      simp [mergeIntensity, mergeField, hnone]
  · rintro r u rfl hu
    simp [mergeIntensity, mergeField, hu]
  · intro hnone
    rcases request with _ | r
    · simp [mergeIntensity, mergeField]
    · simp only [Option.some_bind] at hnone
      simp [mergeIntensity, mergeField, hnone]
  · rintro r q rfl hq
    simp [mergeIntensity, mergeField, hq]
  · intro hnone
    rcases request with _ | r
    · simp [mergeIntensity, mergeField]
    · simp only [Option.some_bind] at hnone
      simp [mergeIntensity, mergeField, hnone]
  · rintro r hs rfl hh
    simp [mergeIntensity, mergeField, hh]
  · intro hnone
    rcases request with _ | r
    · simp [mergeIntensity, mergeField]
    · simp only [Option.some_bind] at hnone
      simp [mergeIntensity, mergeField, hnone]

/-- Witness for intensity_merge_spec: the chat test at the light level with
a request overriding only the user count echoes the merged configuration. -/
theorem intensity_merge_spec_witness :
    run_load_test_with_intensity "chat" "light"
        (Option.some { user_count := Option.some 5 })
        (fun _ => Except.ok (PyVal.int 0))
      = Except.ok (PyVal.dict
          [("test", PyVal.str "chat"),
           ("intensity_level", PyVal.str "light"),
           ("configuration", configurationDict
             { duration_seconds := Option.some 300, user_count := Option.some 5,
               spawn_rate := Option.some 500, host := Option.none }),
           ("result", PyVal.int 0)]) := by
  have h := (intensity_merge_spec "chat" "light"
    (Option.some { user_count := Option.some 5 })
    { duration_seconds := Option.some 300, user_count := Option.some 1000,
      spawn_rate := Option.some 500 }
    (fun _ => Except.ok (PyVal.int 0)) (PyVal.int 0) rfl rfl rfl).1
  exact h

end PerfTests
